import Mathlib

/-
Shallow embedding of the turn-level scoring engine and adaptive
weakness-profiling subsystem of the SmartMem green-agent repository.

Python values flowing through the evaluators are device values: enum
strings and integers (see DEVICE_CONSTRAINTS).  They are modelled by the
`Value` type; Python dictionaries keyed by strings are modelled by
association lists with `dictGet` playing the role of `dict.get` (which
returns None, i.e. `none`, for a missing key).  Python floats only ever
hold small integer sums and exact divisions here, so numeric accumulators
are modelled by the rationals.
-/

namespace SmartMem

/-- Value of a device: an integer or a string (the value domains declared
in DEVICE_CONSTRAINTS are enum strings and bounded integers). -/
inductive Value where
  | vInt (n : Int)
  | vStr (s : String)
deriving DecidableEq, Repr

/-- One action dictionary, the shape produced by the ExpectedAction schema:
an `action` kind plus optional `key` and `value` fields.  Structural
equality of these records coincides with Python dict equality on
dictionaries of this shape, and is exact and type-sensitive: `vInt 24`
and `vStr "24"` are distinct. -/
structure ActionDict where
  action : String
  key : Option String := none
  value : Option Value := none
deriving DecidableEq, Repr

/-- A Python dict from string keys to device values, as an association
list (unique keys; lookup finds the binding). -/
abbrev Dict := List (String × Value)

/-- Python `d.get(k)`: `some v` when `k` is bound to `v`, `none` when the
key is missing. -/
def dictGet (d : Dict) (k : String) : Option Value :=
  d.lookup k

/-- Python `str` of an optional value, as used inside f-string messages
(`str(None) = "None"`). -/
def pyStr : Option Value → String
  | none => "None"
  | some (Value.vInt n) => toString n
  | some (Value.vStr s) => s

/-- Rendering of an action dict inside mismatch messages.  Approximates
Python `str(dict)`; no claim depends on its exact content. -/
def reprAction (a : ActionDict) : String :=
  "\x7b'action': '" ++ a.action ++ "', 'key': " ++
    (match a.key with
     | none => "None"
     | some k => "'" ++ k ++ "'") ++
    ", 'value': " ++
    (match a.value with
     | none => "None"
     | some (Value.vInt n) => toString n
     | some (Value.vStr s) => "'" ++ s ++ "'") ++ "\x7d"

-- === green_agent_v2/evaluator.py ===

/-- Evaluation dimensions (constant DIMENSIONS). -/
def DIMENSIONS : List String :=
  ["precision", "ambiguous", "conflict", "memory", "noise"]

/-- Permitted value domain of one device. -/
inductive DeviceConstraint where
  | enumC (values : List String)
  | intC (lo hi : Int)
deriving DecidableEq, Repr

/-- Constant DEVICE_CONSTRAINTS: the ten catalog devices with their value
domains. -/
def DEVICE_CONSTRAINTS : List (String × DeviceConstraint) :=
  [("living_room_light", .enumC ["on", "off"]),
   ("living_room_color", .enumC ["white", "red", "blue", "warm"]),
   ("bedroom_light", .enumC ["on", "off"]),
   ("bedroom_color", .enumC ["white", "warm", "blue", "red"]),
   ("ac", .enumC ["on", "off"]),
   ("ac_temperature", .intC 16 30),
   ("fan_speed", .enumC ["off", "low", "medium", "high"]),
   ("music_volume", .intC 0 10),
   ("front_door_lock", .enumC ["locked", "unlocked"]),
   ("kitchen_light", .enumC ["on", "off"])]

/-- The `details` sub-dictionary of a turn evaluation result.
`state_match` is an optional boolean because the older evaluator stores
Python `None` (here `none`) in this slot. -/
structure TurnDetails where
  sequence_match : Bool
  state_match : Option Bool
  errors : List String
deriving DecidableEq, Repr

/-- The dictionary returned by `TurnEvaluator.evaluate`. -/
structure TurnResult where
  score : Nat
  details : TurnDetails
  message : String
deriving DecidableEq, Repr

namespace GreenAgentV2

/-- Message `f"Action count mismatch: expected {..}, got {..}"`. -/
def countMismatchMsg (ne na : Nat) : String :=
  "Action count mismatch: expected " ++ toString ne ++ ", got " ++ toString na

/-- Message `f"Action #{i} mismatch: expected {exp}, got {act}"`. -/
def actionMismatchMsg (i : Nat) (exp act : ActionDict) : String :=
  "Action #" ++ toString i ++ " mismatch: expected " ++ reprAction exp ++
    ", got " ++ reprAction act

/-- Message `f"State mismatch [{key}]: expected \x27{exp_val}\x27, got \x27{act_val}\x27"`. -/
def stateMismatchMsg (key : String) (ev : Value) (av : Option Value) : String :=
  "State mismatch [" ++ key ++ "]: expected \x27" ++ pyStr (some ev) ++
    "\x27, got \x27" ++ pyStr av ++ "\x27"

/-- The element-comparison loop of the sequence check: one positional
mismatch message per index where expected and actual differ (`i` is the
index of the first pair; Python `zip` pairs the lists positionally). -/
def elemErrors : Nat → List ActionDict → List ActionDict → List String
  | _, [], _ => []
  | _, _ :: _, [] => []
  | i, e :: es, a :: aas =>
      (if e = a then [] else [actionMismatchMsg i e a]) ++ elemErrors (i + 1) es aas

/-- Step 1 of `TurnEvaluator.evaluate` (sequence verification): a single
count-mismatch error when the lengths differ, otherwise the element-wise
comparison errors. -/
def seqErrors (expected actual : List ActionDict) : List String :=
  if actual.length ≠ expected.length then
    [countMismatchMsg expected.length actual.length]
  else
    elemErrors 0 expected actual

/-- One iteration of the state-verification loop: compare
`actual_final_state.get(key)` against the expected value, appending an
error and clearing the flag on a mismatch. -/
def stateStep (actual : Dict) (acc : List String × Bool) (kv : String × Value) :
    List String × Bool :=
  let act_val := dictGet actual kv.1
  if act_val ≠ some kv.2 then
    (acc.1 ++ [stateMismatchMsg kv.1 kv.2 act_val], false)
  else acc

/-- Step 2 of `TurnEvaluator.evaluate` (state verification): the loop over
`expected_final_state.items()` accumulating error messages and the
`state_match` flag, starting from `([], true)`. -/
def stateCheck (expected : Dict) (actual : Dict) : List String × Bool :=
  expected.foldl (stateStep actual) ([], true)

/-- `TurnEvaluator._build_result`. -/
def buildResult (score : Nat) (seq_match : Bool) (state_match : Option Bool)
    (errors : List String) (msg : String) : TurnResult :=
  { score := score,
    details :=
      { sequence_match := seq_match, state_match := state_match, errors := errors },
    message := msg }

/-- `TurnEvaluator.evaluate` of green_agent_v2/evaluator.py: the evaluator
is constructed with the expected action sequence and expected final state
and called with the actual ones.  On a sequence failure it returns early
with score 0 and state_match `False` (a boolean, stored as `some false`);
otherwise it verifies only the keys present in the expected state. -/
def TurnEvaluator.evaluate (expected_actions : List ActionDict)
    (expected_final_state : Dict) (actual_actions : List ActionDict)
    (actual_final_state : Dict) : TurnResult :=
  let errors := seqErrors expected_actions actual_actions
  let sequence_match := errors.length == 0
  if sequence_match then
    let sc := stateCheck expected_final_state actual_final_state
    let state_match := sc.2
    let score := if state_match then 1 else 0
    buildResult score sequence_match (some state_match) (errors ++ sc.1)
      (if score == 1 then "Perfect" else "State mismatch")
  else
    buildResult 0 sequence_match (some false) errors "Sequence mismatch"

end GreenAgentV2

-- === app/evaluator.py (the older "方案1" evaluator) ===

namespace App

/-- Message of the length check in `TurnEvaluator._verify_sequence`. -/
def lengthMismatchMsg (ne na : Nat) : String :=
  "Length mismatch: expected " ++ toString ne ++ " actions, got " ++
    toString na ++ " actions"

/-- Message of the element check in `TurnEvaluator._verify_sequence`. -/
def appActionMismatchMsg (i : Nat) (exp act : ActionDict) : String :=
  "Action " ++ toString i ++ " mismatch: expected " ++ reprAction exp ++
    ", got " ++ reprAction act

/-- The element loop of `_verify_sequence`: returns `(False, [msg])` at the
first differing index, `(True, [])` when all pairs agree. -/
def verifySeqLoop : Nat → List ActionDict → List ActionDict → Bool × List String
  | _, [], _ => (true, [])
  | _, _ :: _, [] => (true, [])
  | i, e :: es, a :: aas =>
      if e ≠ a then (false, [appActionMismatchMsg i e a])
      else verifySeqLoop (i + 1) es aas

/-- `TurnEvaluator._verify_sequence`: length check first (returning only
the two counts), then the element loop stopping at the first mismatch. -/
def verifySequence (expected actual : List ActionDict) : Bool × List String :=
  if actual.length ≠ expected.length then
    (false, [lengthMismatchMsg expected.length actual.length])
  else
    verifySeqLoop 0 expected actual

/-- `TurnEvaluator._verify_state`: checks only the keys of the expected
state, stopping at the first missing key or differing value. -/
def verifyState : List (String × Value) → Dict → Bool × List String
  | [], _ => (true, [])
  | (k, ev) :: rest, actual =>
      match dictGet actual k with
      | none => (false, ["Missing key in final state: " ++ k])
      | some av =>
          if av ≠ ev then
            (false, ["State mismatch for \x27" ++ k ++ "\x27: expected " ++
              pyStr (some ev) ++ ", got " ++ pyStr (some av)])
          else verifyState rest actual

/-- `TurnEvaluator.evaluate` of app/evaluator.py: on a sequence failure
the result carries `state_match = None` (modelled as `none`) and the
state is never verified. -/
def TurnEvaluator.evaluate (expected_action : List ActionDict)
    (expected_final_state : Dict) (actual_action_sequence : List ActionDict)
    (actual_final_state : Dict) : TurnResult :=
  let seq := verifySequence expected_action actual_action_sequence
  if seq.1 = false then
    { score := 0,
      details := { sequence_match := false, state_match := none, errors := seq.2 },
      message := "Sequence mismatch: Agent\x27s action sequence does not match expected sequence" }
  else
    let st := verifyState expected_final_state actual_final_state
    let score := if st.1 then 1 else 0
    { score := score,
      details := { sequence_match := true, state_match := some st.1,
                   errors := seq.2 ++ st.2 },
      message :=
        if score == 1 then "Perfect: Sequence and state both match"
        else "State mismatch: Final state does not match expected state" }

end App

-- === green_agent_v2/base.py: DimensionStats and WeaknessProfile ===

/-- 维度统计 (per-bucket statistics), from base.py.  Integer counters plus
numeric score accumulators, modelled over ℚ. -/
structure DimensionStats where
  total : Nat := 0
  passed : Nat := 0
  failed : Nat := 0
  total_score : ℚ := 0
  max_possible_score : ℚ := 0
deriving DecidableEq, Repr

/-- Derived property `pass_rate = passed / max(1, total)`. -/
def DimensionStats.pass_rate (s : DimensionStats) : ℚ :=
  (s.passed : ℚ) / ((max 1 s.total : Nat) : ℚ)

/-- Derived property `avg_score = total_score / max(1, max_possible_score)`. -/
def DimensionStats.avg_score (s : DimensionStats) : ℚ :=
  s.total_score / max 1 s.max_possible_score

/-- Derived property `weakness_score = 1.0 - avg_score`. -/
def DimensionStats.weakness_score (s : DimensionStats) : ℚ :=
  1 - s.avg_score

/-- 单个测试结果 (TestResult of base.py); stored in the profile's
failed-cases list, never touched by the code under verification. -/
structure TestResult where
  test_case : Dict
  score : ℚ
  max_score : ℚ
  passed : Bool
  errors : List String := []
  turn_details : List Dict := []
deriving DecidableEq, Repr

/-- A Python dict from string keys to bucket statistics, as a function
map (`none` = key absent). -/
def StatsMap := String → Option DimensionStats

/-- The empty dict. -/
def StatsMap.empty : StatsMap := fun _ => none

/-- `m[k] = v` on a stats dict. -/
def StatsMap.insert (m : StatsMap) (k : String) (v : DimensionStats) : StatsMap :=
  fun q => if q = k then some v else m q

/-- 弱点画像 (WeaknessProfile of base.py). -/
structure WeaknessProfile where
  by_dimension : StatsMap := StatsMap.empty
  by_difficulty : StatsMap := StatsMap.empty
  by_device : StatsMap := StatsMap.empty
  failed_cases : List TestResult := []
  boundary_found : List (String × String) := []

-- === green_agent_v2/evaluator.py: WeaknessAnalyzer and AdaptiveEvaluator ===

namespace GreenAgentV2

/-- The difficulty tiers enumerated in `WeaknessAnalyzer._init_stats`. -/
def difficultyTiers : List String := ["easy", "medium", "difficult"]

/-- Populate a stats dict with one fresh `DimensionStats()` per key. -/
def initStatsMap (keys : List String) : StatsMap :=
  keys.foldl (fun m k => m.insert k {}) StatsMap.empty

/-- `WeaknessAnalyzer.__init__` / `_init_stats`: the profile starts with a
zeroed bucket for every dimension, every difficulty tier and every
catalog device. -/
def initProfile : WeaknessProfile :=
  { by_dimension := initStatsMap DIMENSIONS,
    by_difficulty := initStatsMap difficultyTiers,
    by_device := initStatsMap (DEVICE_CONSTRAINTS.map (fun kv => kv.1)) }

/-- The analyzer object: its only state is the profile it owns. -/
structure WeaknessAnalyzer where
  profile : WeaknessProfile

/-- A freshly constructed `WeaknessAnalyzer()`. -/
def WeaknessAnalyzer.mk0 : WeaknessAnalyzer := { profile := initProfile }

/-- The inner helper `_update_single_stat` of `WeaknessAnalyzer.update`. -/
def updateSingleStat (score : ℚ) (passed : Bool) (s : DimensionStats) : DimensionStats :=
  { s with
    total := s.total + 1,
    total_score := s.total_score + score,
    max_possible_score := s.max_possible_score + 1,
    passed := if passed then s.passed + 1 else s.passed,
    failed := if passed then s.failed else s.failed + 1 }

/-- `if name in m: _update_single_stat(m[name])` — a bucket is updated
only when the dict already holds it; unrecognized names are skipped. -/
def touchBucket (m : StatsMap) (k : String) (score : ℚ) (passed : Bool) : StatsMap :=
  match m k with
  | some s => m.insert k (updateSingleStat score passed s)
  | none => m

/-- The context dict handed to `WeaknessAnalyzer.update`; each field is
`none` when the corresponding key is absent. -/
structure Metadata where
  dimension : Option String := none
  difficulty : Option String := none
  involved_devices : Option (List String) := none
deriving DecidableEq, Repr

/-- `WeaknessAnalyzer.update(result, metadata)`.  `passed` is
`result['score'] == 1`; the dimension bucket is touched when the metadata
names a dimension (Python truthiness skips `None` and the empty string),
likewise the difficulty bucket, and one device bucket per entry of
`involved_devices` (default `[]`). -/
def WeaknessAnalyzer.update (a : WeaknessAnalyzer) (result : TurnResult)
    (metadata : Metadata) : WeaknessAnalyzer :=
  let passed := result.score == 1
  let score : ℚ := (result.score : ℚ)
  let byDim :=
    match metadata.dimension with
    | some dim => if dim = "" then a.profile.by_dimension
                  else touchBucket a.profile.by_dimension dim score passed
    | none => a.profile.by_dimension
  let byDiff :=
    match metadata.difficulty with
    | some diff => if diff = "" then a.profile.by_difficulty
                   else touchBucket a.profile.by_difficulty diff score passed
    | none => a.profile.by_difficulty
  let byDev :=
    (metadata.involved_devices.getD []).foldl
      (fun m device => touchBucket m device score passed) a.profile.by_device
  { profile :=
      { a.profile with
        by_dimension := byDim, by_difficulty := byDiff, by_device := byDev } }

/-- `WeaknessAnalyzer.get_profile`. -/
def WeaknessAnalyzer.get_profile (a : WeaknessAnalyzer) : WeaknessProfile :=
  a.profile

/-- A sequence of `update` calls on an analyzer, in call order. -/
def WeaknessAnalyzer.runUpdates (a : WeaknessAnalyzer)
    (steps : List (TurnResult × Metadata)) : WeaknessAnalyzer :=
  steps.foldl (fun acc st => acc.update st.1 st.2) a

/-- A history record: the turn result enriched with its metadata and a
zero-based index (`full_record` in `AdaptiveEvaluator.evaluate_turn`).
The stored metadata aliases the caller's dict, so it carries the
involved-devices entry filled in by the same call. -/
structure HistoryEntry where
  result : TurnResult
  metadata : Metadata
  index : Nat
deriving DecidableEq, Repr

/-- `AdaptiveEvaluator`: an analyzer for the global stats plus the
append-only history list. -/
structure AdaptiveEvaluator where
  analyzer : WeaknessAnalyzer
  history : List HistoryEntry

/-- A freshly constructed `AdaptiveEvaluator()`. -/
def AdaptiveEvaluator.mk0 : AdaptiveEvaluator :=
  { analyzer := WeaknessAnalyzer.mk0, history := [] }

/-- `AdaptiveEvaluator._extract_devices`: every `key` field present in the
actions plus every key of the state.  Python builds a `set`; it is
modelled as a duplicate-free list. -/
def AdaptiveEvaluator.extract_devices (actions : List ActionDict) (state : Dict) :
    List String :=
  ((actions.filterMap (fun a => a.key)) ++ state.map (fun kv => kv.1)).dedup

/-- The in-place mutation `metadata['involved_devices'] = ...` performed
by `evaluate_turn` when the key is absent: the metadata value every later
reader of the caller's dict observes. -/
def resolveMetadata (metadata : Metadata) (expected_actions : List ActionDict)
    (expected_state : Dict) : Metadata :=
  if metadata.involved_devices.isSome then metadata
  else { metadata with
         involved_devices :=
           some (AdaptiveEvaluator.extract_devices expected_actions expected_state) }

/-- `AdaptiveEvaluator.evaluate_turn`: scores the turn with a transient
`TurnEvaluator`, appends the enriched record at index `len(history)`,
fills in `metadata['involved_devices']` from the expected side when the
key is absent (an in-place mutation of the caller's dict, so the history
record sees it too), forwards result and metadata to the analyzer, and
returns the raw result. -/
def AdaptiveEvaluator.evaluate_turn (ae : AdaptiveEvaluator)
    (actual_actions : List ActionDict) (actual_state : Dict)
    (expected_actions : List ActionDict) (expected_state : Dict)
    (metadata : Metadata) : AdaptiveEvaluator × TurnResult :=
  let result := TurnEvaluator.evaluate expected_actions expected_state
    actual_actions actual_state
  let metadata' := resolveMetadata metadata expected_actions expected_state
  let record : HistoryEntry :=
    { result := result, metadata := metadata', index := ae.history.length }
  ({ analyzer := ae.analyzer.update result metadata',
     history := ae.history ++ [record] }, result)

/-- `AdaptiveEvaluator.get_global_profile`. -/
def AdaptiveEvaluator.get_global_profile (ae : AdaptiveEvaluator) : WeaknessProfile :=
  ae.analyzer.get_profile

/-- The five arguments of one `evaluate_turn` call. -/
structure TurnCall where
  actual_actions : List ActionDict
  actual_state : Dict
  expected_actions : List ActionDict
  expected_state : Dict
  metadata : Metadata
deriving DecidableEq, Repr

/-- A sequence of `evaluate_turn` calls on an adaptive evaluator, in call
order. -/
def AdaptiveEvaluator.runTurns (ae : AdaptiveEvaluator) (calls : List TurnCall) :
    AdaptiveEvaluator :=
  calls.foldl
    (fun s c =>
      (s.evaluate_turn c.actual_actions c.actual_state c.expected_actions
        c.expected_state c.metadata).1) ae

end GreenAgentV2

-- === Helper lemmas: the green_agent_v2 TurnEvaluator ===

namespace GreenAgentV2

theorem elemErrors_eq_nil_iff : ∀ (es aas : List ActionDict) (i : Nat),
    es.length = aas.length → (elemErrors i es aas = [] ↔ es = aas) := by
  intro es
  induction es with
  | nil =>
    intro aas i h
    cases aas with
    | nil => simp [elemErrors]
    | cons a t => simp at h
  | cons e et ih =>
    intro aas i h
    cases aas with
    | nil => simp at h
    | cons a t =>
      simp only [elemErrors]
      by_cases hea : e = a
      · subst hea
        simpa using ih t (i + 1) (by simpa using h)
      · simp [hea]

theorem elemErrors_length : ∀ (es aas : List ActionDict) (i : Nat),
    (elemErrors i es aas).length =
      (es.zip aas).countP (fun p => decide (p.1 ≠ p.2)) := by
  intro es
  induction es with
  | nil => intro aas i; cases aas <;> simp [elemErrors]
  | cons e et ih =>
    intro aas i
    cases aas with
    | nil => simp [elemErrors]
    | cons a t =>
      simp only [elemErrors, List.zip_cons_cons, List.countP_cons,
        List.length_append]
      by_cases hea : e = a
      · simp [hea, ih]
      · simp [hea, ih, Nat.add_comm]

theorem seqErrors_eq_nil_iff (e a : List ActionDict) :
    seqErrors e a = [] ↔ a = e := by
  unfold seqErrors
  by_cases h : a.length = e.length
  · rw [if_neg (by simp [h])]
    rw [elemErrors_eq_nil_iff e a 0 h.symm]
    exact eq_comm
  · rw [if_pos h]
    constructor
    · intro hh; simp at hh
    · intro hh; exact absurd (by rw [hh]) h

theorem evaluate_seq_fail {e a : List ActionDict} {s t : Dict}
    (h : seqErrors e a ≠ []) :
    TurnEvaluator.evaluate e s a t =
      buildResult 0 false (some false) (seqErrors e a) "Sequence mismatch" := by
  have h0 : ((seqErrors e a).length == 0) = false := by
    simpa [List.length_eq_zero] using h
  unfold TurnEvaluator.evaluate
  simp [h0]

theorem evaluate_seq_ok {e a : List ActionDict} {s t : Dict}
    (h : seqErrors e a = []) :
    TurnEvaluator.evaluate e s a t =
      buildResult (if (stateCheck s t).2 then 1 else 0) true
        (some (stateCheck s t).2) ((stateCheck s t).1)
        (if (if (stateCheck s t).2 then 1 else 0) == 1 then "Perfect"
         else "State mismatch") := by
  unfold TurnEvaluator.evaluate
  simp [h]

theorem stateCheck_foldl_eq (actual : Dict) : ∀ (l : Dict) (acc : List String × Bool),
    l.foldl (stateStep actual) acc =
      (acc.1 ++ l.filterMap
          (fun kv =>
            if dictGet actual kv.1 ≠ some kv.2 then
              some (stateMismatchMsg kv.1 kv.2 (dictGet actual kv.1))
            else none),
       acc.2 && l.all (fun kv => dictGet actual kv.1 == some kv.2)) := by
  intro l
  induction l with
  | nil => intro acc; simp
  | cons kv t ih =>
    intro acc
    rw [List.foldl_cons, ih]
    by_cases hkv : dictGet actual kv.1 = some kv.2
    · simp [stateStep, hkv]
    · simp [stateStep, hkv]

theorem stateCheck_eq (expected actual : Dict) :
    stateCheck expected actual =
      (expected.filterMap
          (fun kv =>
            if dictGet actual kv.1 ≠ some kv.2 then
              some (stateMismatchMsg kv.1 kv.2 (dictGet actual kv.1))
            else none),
       expected.all (fun kv => dictGet actual kv.1 == some kv.2)) := by
  unfold stateCheck
  rw [stateCheck_foldl_eq]
  simp

end GreenAgentV2

-- === Helper lemmas: the app TurnEvaluator ===

namespace App

theorem verifySeqLoop_fst_iff : ∀ (es aas : List ActionDict) (i : Nat),
    es.length = aas.length → ((verifySeqLoop i es aas).1 = true ↔ es = aas) := by
  intro es
  induction es with
  | nil =>
    intro aas i h
    cases aas with
    | nil => simp [verifySeqLoop]
    | cons a t => simp at h
  | cons e et ih =>
    intro aas i h
    cases aas with
    | nil => simp at h
    | cons a t =>
      simp only [verifySeqLoop]
      by_cases hea : e = a
      · subst hea
        simpa using ih t (i + 1) (by simpa using h)
      · simp [hea]

theorem verifySequence_fst_iff (e a : List ActionDict) :
    (verifySequence e a).1 = true ↔ a = e := by
  unfold verifySequence
  by_cases h : a.length = e.length
  · rw [if_neg (by simp [h])]
    rw [verifySeqLoop_fst_iff e a 0 h.symm]
    exact eq_comm
  · rw [if_pos h]
    constructor
    · intro hh; simp at hh
    · intro hh; exact absurd (by rw [hh]) h

theorem app_evaluate_seq_fail {e a : List ActionDict} {s t : Dict}
    (h : (verifySequence e a).1 = false) :
    TurnEvaluator.evaluate e s a t =
      { score := 0,
        details := { sequence_match := false, state_match := none,
                     errors := (verifySequence e a).2 },
        message := "Sequence mismatch: Agent\x27s action sequence does not match expected sequence" } := by
  unfold TurnEvaluator.evaluate
  simp [h]

end App

-- === Helper lemmas: stats maps and the WeaknessAnalyzer ===

namespace GreenAgentV2

theorem StatsMap.insert_apply (m : StatsMap) (k : String) (v : DimensionStats)
    (q : String) : m.insert k v q = if q = k then some v else m q := rfl

theorem touchBucket_apply (m : StatsMap) (k : String) (sc : ℚ) (pa : Bool)
    (q : String) :
    touchBucket m k sc pa q =
      if q = k then (m k).map (updateSingleStat sc pa) else m q := by
  unfold touchBucket
  cases h : m k with
  | none =>
    by_cases hq : q = k
    · subst hq; simp [h]
    · simp [hq]
  | some s =>
    by_cases hq : q = k
    · subst hq; simp [StatsMap.insert_apply, h]
    · simp [StatsMap.insert_apply, hq]

/-- `n` successive single-bucket updates with the same score and outcome. -/
def applyN (sc : ℚ) (pa : Bool) : Nat → DimensionStats → DimensionStats
  | 0, s => s
  | n + 1, s => applyN sc pa n (updateSingleStat sc pa s)

theorem foldl_touchBucket_apply (sc : ℚ) (pa : Bool) :
    ∀ (l : List String) (m : StatsMap) (q : String),
      (l.foldl (fun mm k => touchBucket mm k sc pa) m) q =
        (m q).map (applyN sc pa (l.count q)) := by
  intro l
  induction l with
  | nil => intro m q; cases h : m q <;> simp [h, applyN]
  | cons a t ih =>
    intro m q
    rw [List.foldl_cons, ih, touchBucket_apply]
    by_cases hq : q = a
    · subst hq
      rw [if_pos rfl, List.count_cons_self]
      cases h : m q <;> simp [h, applyN]
    · rw [if_neg hq, List.count_cons_of_ne hq]

theorem initStatsMap_foldl_apply : ∀ (keys : List String) (m : StatsMap) (q : String),
    (keys.foldl (fun mm k => StatsMap.insert mm k {}) m) q =
      if q ∈ keys then some {} else m q := by
  intro keys
  induction keys with
  | nil => intro m q; simp
  | cons a t ih =>
    intro m q
    rw [List.foldl_cons, ih]
    by_cases hqt : q ∈ t
    · simp [hqt]
    · by_cases hqa : q = a
      · subst hqa; simp [hqt, StatsMap.insert_apply]
      · simp [hqt, hqa, StatsMap.insert_apply]

theorem initStatsMap_apply (keys : List String) (q : String) :
    initStatsMap keys q = if q ∈ keys then some {} else none := by
  unfold initStatsMap
  rw [initStatsMap_foldl_apply]
  rfl

theorem updateSingleStat_total (sc : ℚ) (pa : Bool) (s : DimensionStats) :
    (updateSingleStat sc pa s).total = s.total + 1 := rfl

theorem applyN_total (sc : ℚ) (pa : Bool) :
    ∀ (n : Nat) (s : DimensionStats), (applyN sc pa n s).total = s.total + n := by
  intro n
  induction n with
  | zero => intro s; rfl
  | succ k ih =>
    intro s
    show (applyN sc pa k (updateSingleStat sc pa s)).total = s.total + (k + 1)
    rw [ih, updateSingleStat_total]
    omega

theorem updateSingleStat_statInv (sc : ℚ) (pa : Bool) (s : DimensionStats)
    (h1 : s.total = s.passed + s.failed)
    (h2 : s.total_score ≤ s.max_possible_score) (hsc : sc ≤ 1) :
    (updateSingleStat sc pa s).total = (updateSingleStat sc pa s).passed +
        (updateSingleStat sc pa s).failed ∧
      (updateSingleStat sc pa s).total_score ≤
        (updateSingleStat sc pa s).max_possible_score := by
  unfold updateSingleStat
  cases pa <;> constructor <;> simp <;> first | omega | linarith

/-- Both bucket invariants, packaged. -/
def StatInv (s : DimensionStats) : Prop :=
  s.total = s.passed + s.failed ∧ s.total_score ≤ s.max_possible_score

/-- Every bucket held by a stats dict satisfies the invariants. -/
def MapInv (m : StatsMap) : Prop := ∀ k s, m k = some s → StatInv s

theorem statInv_updateSingleStat {sc : ℚ} {pa : Bool} {s : DimensionStats}
    (h : StatInv s) (hsc : sc ≤ 1) : StatInv (updateSingleStat sc pa s) :=
  updateSingleStat_statInv sc pa s h.1 h.2 hsc

theorem statInv_applyN {sc : ℚ} {pa : Bool} :
    ∀ {n : Nat} {s : DimensionStats}, StatInv s → sc ≤ 1 →
      StatInv (applyN sc pa n s) := by
  intro n
  induction n with
  | zero => intro s h _; exact h
  | succ k ih =>
    intro s h hsc
    exact ih (statInv_updateSingleStat h hsc) hsc

theorem mapInv_touchBucket {m : StatsMap} {sc : ℚ} {pa : Bool} (k : String)
    (h : MapInv m) (hsc : sc ≤ 1) : MapInv (touchBucket m k sc pa) := by
  intro q s hq
  rw [touchBucket_apply] at hq
  by_cases hqk : q = k
  · rw [if_pos hqk] at hq
    obtain ⟨s0, h0, rfl⟩ := Option.map_eq_some'.mp hq
    exact statInv_updateSingleStat (h k s0 h0) hsc
  · rw [if_neg hqk] at hq
    exact h q s hq

theorem mapInv_foldl_touchBucket {m : StatsMap} {sc : ℚ} {pa : Bool}
    (l : List String) (h : MapInv m) (hsc : sc ≤ 1) :
    MapInv (l.foldl (fun mm k => touchBucket mm k sc pa) m) := by
  intro q s hq
  rw [foldl_touchBucket_apply] at hq
  obtain ⟨s0, h0, rfl⟩ := Option.map_eq_some'.mp hq
  exact statInv_applyN (h q s0 h0) hsc

theorem mapInv_initStatsMap (keys : List String) : MapInv (initStatsMap keys) := by
  intro q s hq
  rw [initStatsMap_apply] at hq
  by_cases hk : q ∈ keys
  · rw [if_pos hk] at hq
    cases hq
    exact ⟨rfl, le_refl _⟩
  · rw [if_neg hk] at hq
    cases hq

-- Field-wise description of one `WeaknessAnalyzer.update` call.

theorem update_by_dimension_apply (a : WeaknessAnalyzer) (r : TurnResult)
    (md : Metadata) (q : String) :
    (a.update r md).profile.by_dimension q =
      if md.dimension = some q ∧ q ≠ "" then
        (a.profile.by_dimension q).map
          (updateSingleStat (r.score : ℚ) (r.score == 1))
      else a.profile.by_dimension q := by
  unfold WeaknessAnalyzer.update
  cases hd : md.dimension with
  | none => simp
  | some d =>
    by_cases hde : d = ""
    · subst hde
      by_cases hq : q = ""
      · subst hq; simp
      · rw [if_neg (by rintro ⟨h1, _⟩; exact hq (Option.some.inj h1).symm)]
        rfl
    · by_cases hq : q = d
      · subst hq
        simp [hde, touchBucket_apply]
      · rw [if_neg (by rintro ⟨h1, _⟩; exact hq (Option.some.inj h1).symm)]
        simp [hde, touchBucket_apply, hq]

theorem update_by_difficulty_apply (a : WeaknessAnalyzer) (r : TurnResult)
    (md : Metadata) (q : String) :
    (a.update r md).profile.by_difficulty q =
      if md.difficulty = some q ∧ q ≠ "" then
        (a.profile.by_difficulty q).map
          (updateSingleStat (r.score : ℚ) (r.score == 1))
      else a.profile.by_difficulty q := by
  unfold WeaknessAnalyzer.update
  cases hd : md.difficulty with
  | none => simp
  | some d =>
    by_cases hde : d = ""
    · subst hde
      by_cases hq : q = ""
      · subst hq; simp
      · rw [if_neg (by rintro ⟨h1, _⟩; exact hq (Option.some.inj h1).symm)]
        rfl
    · by_cases hq : q = d
      · subst hq
        simp [hde, touchBucket_apply]
      · rw [if_neg (by rintro ⟨h1, _⟩; exact hq (Option.some.inj h1).symm)]
        simp [hde, touchBucket_apply, hq]

theorem update_by_device_apply (a : WeaknessAnalyzer) (r : TurnResult)
    (md : Metadata) (q : String) :
    (a.update r md).profile.by_device q =
      (a.profile.by_device q).map
        (applyN (r.score : ℚ) (r.score == 1)
          ((md.involved_devices.getD []).count q)) := by
  unfold WeaknessAnalyzer.update
  simp only []
  rw [foldl_touchBucket_apply]

-- Properties of `resolveMetadata` and `evaluate_turn`.

theorem resolveMetadata_dimension (md : Metadata) (ea : List ActionDict)
    (es : Dict) : (resolveMetadata md ea es).dimension = md.dimension := by
  unfold resolveMetadata
  by_cases h : md.involved_devices.isSome <;> simp [h]

theorem resolveMetadata_difficulty (md : Metadata) (ea : List ActionDict)
    (es : Dict) : (resolveMetadata md ea es).difficulty = md.difficulty := by
  unfold resolveMetadata
  by_cases h : md.involved_devices.isSome <;> simp [h]

theorem resolveMetadata_devices (md : Metadata) (ea : List ActionDict)
    (es : Dict) :
    (resolveMetadata md ea es).involved_devices =
      some (md.involved_devices.getD (AdaptiveEvaluator.extract_devices ea es)) := by
  unfold resolveMetadata
  cases h : md.involved_devices <;> simp [h]

theorem resolveMetadata_of_none {md : Metadata} (ea : List ActionDict)
    (es : Dict) (h : md.involved_devices = none) :
    resolveMetadata md ea es =
      { md with
        involved_devices := some (AdaptiveEvaluator.extract_devices ea es) } := by
  unfold resolveMetadata
  simp [h]

theorem evaluate_turn_fst_history (ae : AdaptiveEvaluator)
    (aa : List ActionDict) (ast : Dict) (ea : List ActionDict) (es : Dict)
    (md : Metadata) :
    (ae.evaluate_turn aa ast ea es md).1.history =
      ae.history ++
        [{ result := TurnEvaluator.evaluate ea es aa ast,
           metadata := resolveMetadata md ea es,
           index := ae.history.length }] := rfl

theorem evaluate_turn_fst_analyzer (ae : AdaptiveEvaluator)
    (aa : List ActionDict) (ast : Dict) (ea : List ActionDict) (es : Dict)
    (md : Metadata) :
    (ae.evaluate_turn aa ast ea es md).1.analyzer =
      ae.analyzer.update (TurnEvaluator.evaluate ea es aa ast)
        (resolveMetadata md ea es) := rfl

/-- The involved-devices list a call with this turn's arguments forwards
to the analyzer: the caller's list when supplied, else the inferred set. -/
def effDevices (c : TurnCall) : List String :=
  c.metadata.involved_devices.getD
    (AdaptiveEvaluator.extract_devices c.expected_actions c.expected_state)

theorem effDevices_nodup {c : TurnCall}
    (hnd : ∀ l, c.metadata.involved_devices = some l → l.Nodup) :
    (effDevices c).Nodup := by
  unfold effDevices
  cases h : c.metadata.involved_devices with
  | none =>
    simp only [Option.getD_none]
    exact List.nodup_dedup _
  | some l =>
    simpa using hnd l h

-- Structure of the history across a sequence of `evaluate_turn` calls.

theorem runTurns_history_map_index : ∀ (calls : List TurnCall)
    (ae : AdaptiveEvaluator),
    (ae.runTurns calls).history.map HistoryEntry.index =
      ae.history.map HistoryEntry.index ++
        List.range' ae.history.length calls.length 1 := by
  intro calls
  induction calls with
  | nil => intro ae; simp [AdaptiveEvaluator.runTurns]
  | cons c t ih =>
    intro ae
    show ((ae.evaluate_turn c.actual_actions c.actual_state c.expected_actions
        c.expected_state c.metadata).1.runTurns t).history.map HistoryEntry.index = _
    rw [ih, evaluate_turn_fst_history]
    simp only [List.map_append, List.length_append, List.map_cons, List.map_nil,
      List.length_cons, List.length_nil]
    rw [List.range'_succ]
    simp

theorem runTurns_history_length (calls : List TurnCall) (ae : AdaptiveEvaluator) :
    (ae.runTurns calls).history.length = ae.history.length + calls.length := by
  have h := congrArg List.length (runTurns_history_map_index calls ae)
  simpa using h

theorem runTurns_history_extends : ∀ (calls : List TurnCall)
    (ae : AdaptiveEvaluator),
    ∃ tail, (ae.runTurns calls).history = ae.history ++ tail := by
  intro calls
  induction calls with
  | nil => intro ae; exact ⟨[], by simp [AdaptiveEvaluator.runTurns]⟩
  | cons c t ih =>
    intro ae
    obtain ⟨tl, htl⟩ := ih (ae.evaluate_turn c.actual_actions c.actual_state
      c.expected_actions c.expected_state c.metadata).1
    have hstep := evaluate_turn_fst_history ae c.actual_actions c.actual_state
      c.expected_actions c.expected_state c.metadata
    refine ⟨(ae.evaluate_turn c.actual_actions c.actual_state c.expected_actions
        c.expected_state c.metadata).1.history.drop ae.history.length ++ tl, ?_⟩
    have hcons : AdaptiveEvaluator.runTurns ae (c :: t) =
        AdaptiveEvaluator.runTurns (ae.evaluate_turn c.actual_actions
          c.actual_state c.expected_actions c.expected_state c.metadata).1 t := rfl
    rw [hcons, htl, hstep, List.drop_left, List.append_assoc]

theorem runTurns_take_is_prelude (calls : List TurnCall) (k : Nat) :
    ∃ tail, (AdaptiveEvaluator.mk0.runTurns calls).history =
      (AdaptiveEvaluator.mk0.runTurns (calls.take k)).history ++ tail := by
  have hsplit : calls = calls.take k ++ calls.drop k := (List.take_append_drop k calls).symm
  obtain ⟨tl, htl⟩ := runTurns_history_extends (calls.drop k)
    (AdaptiveEvaluator.mk0.runTurns (calls.take k))
  refine ⟨tl, ?_⟩
  calc (AdaptiveEvaluator.mk0.runTurns calls).history
      = (AdaptiveEvaluator.mk0.runTurns (calls.take k ++ calls.drop k)).history := by
        rw [← hsplit]
    _ = ((AdaptiveEvaluator.mk0.runTurns (calls.take k)).runTurns (calls.drop k)).history := by
        unfold AdaptiveEvaluator.runTurns
        rw [List.foldl_append]
    _ = (AdaptiveEvaluator.mk0.runTurns (calls.take k)).history ++ tl := htl

-- Bucket totals across a sequence of `evaluate_turn` calls.

theorem runTurns_dim_total : ∀ (calls : List TurnCall) (ae : AdaptiveEvaluator)
    (q : String), q ≠ "" → ∀ s0,
    ae.analyzer.profile.by_dimension q = some s0 →
      ∃ s, (ae.runTurns calls).analyzer.profile.by_dimension q = some s ∧
        s.total = s0.total +
          calls.countP (fun c => c.metadata.dimension == some q) := by
  intro calls
  induction calls with
  | nil =>
    intro ae q _ s0 h0
    exact ⟨s0, h0, by simp⟩
  | cons c t ih =>
    intro ae q hq s0 h0
    have hstep := update_by_dimension_apply ae.analyzer
      (TurnEvaluator.evaluate c.expected_actions c.expected_state
        c.actual_actions c.actual_state)
      (resolveMetadata c.metadata c.expected_actions c.expected_state) q
    rw [resolveMetadata_dimension] at hstep
    have hcons : AdaptiveEvaluator.runTurns ae (c :: t) =
        AdaptiveEvaluator.runTurns (ae.evaluate_turn c.actual_actions
          c.actual_state c.expected_actions c.expected_state c.metadata).1 t := rfl
    rw [hcons]
    by_cases hr : c.metadata.dimension = some q
    · have hbye : (ae.evaluate_turn c.actual_actions c.actual_state
          c.expected_actions c.expected_state c.metadata).1.analyzer.profile.by_dimension q =
          some (updateSingleStat
            ((TurnEvaluator.evaluate c.expected_actions c.expected_state
              c.actual_actions c.actual_state).score : ℚ)
            ((TurnEvaluator.evaluate c.expected_actions c.expected_state
              c.actual_actions c.actual_state).score == 1) s0) := by
        rw [evaluate_turn_fst_analyzer, hstep, if_pos ⟨hr, hq⟩, h0]
        rfl
      obtain ⟨s, hs, ht⟩ := ih _ q hq _ hbye
      refine ⟨s, hs, ?_⟩
      have hif : (if (c.metadata.dimension == some q) = true then 1 else 0) = 1 := by
        simp [hr]
      rw [ht, updateSingleStat_total, List.countP_cons, hif]
      omega
    · have hbye : (ae.evaluate_turn c.actual_actions c.actual_state
          c.expected_actions c.expected_state c.metadata).1.analyzer.profile.by_dimension q =
          some s0 := by
        rw [evaluate_turn_fst_analyzer, hstep,
          if_neg (by rintro ⟨h1, _⟩; exact hr h1), h0]
      obtain ⟨s, hs, ht⟩ := ih _ q hq _ hbye
      refine ⟨s, hs, ?_⟩
      have hif : (if (c.metadata.dimension == some q) = true then 1 else 0) = 0 := by
        simp [hr]
      rw [ht, List.countP_cons, hif]
      omega

theorem runTurns_diff_total : ∀ (calls : List TurnCall) (ae : AdaptiveEvaluator)
    (q : String), q ≠ "" → ∀ s0,
    ae.analyzer.profile.by_difficulty q = some s0 →
      ∃ s, (ae.runTurns calls).analyzer.profile.by_difficulty q = some s ∧
        s.total = s0.total +
          calls.countP (fun c => c.metadata.difficulty == some q) := by
  intro calls
  induction calls with
  | nil =>
    intro ae q _ s0 h0
    exact ⟨s0, h0, by simp⟩
  | cons c t ih =>
    intro ae q hq s0 h0
    have hstep := update_by_difficulty_apply ae.analyzer
      (TurnEvaluator.evaluate c.expected_actions c.expected_state
        c.actual_actions c.actual_state)
      (resolveMetadata c.metadata c.expected_actions c.expected_state) q
    rw [resolveMetadata_difficulty] at hstep
    have hcons : AdaptiveEvaluator.runTurns ae (c :: t) =
        AdaptiveEvaluator.runTurns (ae.evaluate_turn c.actual_actions
          c.actual_state c.expected_actions c.expected_state c.metadata).1 t := rfl
    rw [hcons]
    by_cases hr : c.metadata.difficulty = some q
    · have hbye : (ae.evaluate_turn c.actual_actions c.actual_state
          c.expected_actions c.expected_state c.metadata).1.analyzer.profile.by_difficulty q =
          some (updateSingleStat
            ((TurnEvaluator.evaluate c.expected_actions c.expected_state
              c.actual_actions c.actual_state).score : ℚ)
            ((TurnEvaluator.evaluate c.expected_actions c.expected_state
              c.actual_actions c.actual_state).score == 1) s0) := by
        rw [evaluate_turn_fst_analyzer, hstep, if_pos ⟨hr, hq⟩, h0]
        rfl
      obtain ⟨s, hs, ht⟩ := ih _ q hq _ hbye
      refine ⟨s, hs, ?_⟩
      have hif : (if (c.metadata.difficulty == some q) = true then 1 else 0) = 1 := by
        simp [hr]
      rw [ht, updateSingleStat_total, List.countP_cons, hif]
      omega
    · have hbye : (ae.evaluate_turn c.actual_actions c.actual_state
          c.expected_actions c.expected_state c.metadata).1.analyzer.profile.by_difficulty q =
          some s0 := by
        rw [evaluate_turn_fst_analyzer, hstep,
          if_neg (by rintro ⟨h1, _⟩; exact hr h1), h0]
      obtain ⟨s, hs, ht⟩ := ih _ q hq _ hbye
      refine ⟨s, hs, ?_⟩
      have hif : (if (c.metadata.difficulty == some q) = true then 1 else 0) = 0 := by
        simp [hr]
      rw [ht, List.countP_cons, hif]
      omega

theorem runTurns_dev_total : ∀ (calls : List TurnCall) (ae : AdaptiveEvaluator)
    (q : String),
    (∀ c ∈ calls, ∀ l, c.metadata.involved_devices = some l → l.Nodup) →
    ∀ s0, ae.analyzer.profile.by_device q = some s0 →
      ∃ s, (ae.runTurns calls).analyzer.profile.by_device q = some s ∧
        s.total = s0.total +
          calls.countP (fun c => decide (q ∈ effDevices c)) := by
  intro calls
  induction calls with
  | nil =>
    intro ae q _ s0 h0
    exact ⟨s0, h0, by simp⟩
  | cons c t ih =>
    intro ae q hnd s0 h0
    have hstep := update_by_device_apply ae.analyzer
      (TurnEvaluator.evaluate c.expected_actions c.expected_state
        c.actual_actions c.actual_state)
      (resolveMetadata c.metadata c.expected_actions c.expected_state) q
    rw [resolveMetadata_devices] at hstep
    have hdevs : (some (c.metadata.involved_devices.getD
        (AdaptiveEvaluator.extract_devices c.expected_actions
          c.expected_state)) : Option (List String)).getD [] = effDevices c := rfl
    rw [hdevs] at hstep
    have hcnod : (effDevices c).Nodup :=
      effDevices_nodup (fun l hl => hnd c (List.mem_cons_self c t) l hl)
    have hcount : (effDevices c).count q =
        if q ∈ effDevices c then 1 else 0 := by
      by_cases hmem : q ∈ effDevices c
      · rw [if_pos hmem]
        exact List.count_eq_one_of_mem hcnod hmem
      · rw [if_neg hmem]
        exact List.count_eq_zero_of_not_mem hmem
    have hcons : AdaptiveEvaluator.runTurns ae (c :: t) =
        AdaptiveEvaluator.runTurns (ae.evaluate_turn c.actual_actions
          c.actual_state c.expected_actions c.expected_state c.metadata).1 t := rfl
    rw [hcons]
    have hnd' : ∀ c2 ∈ t, ∀ l, c2.metadata.involved_devices = some l → l.Nodup :=
      fun c2 hc2 l hl => hnd c2 (List.mem_cons_of_mem c hc2) l hl
    by_cases hmem : q ∈ effDevices c
    · have hbye : (ae.evaluate_turn c.actual_actions c.actual_state
          c.expected_actions c.expected_state c.metadata).1.analyzer.profile.by_device q =
          some (applyN
            ((TurnEvaluator.evaluate c.expected_actions c.expected_state
              c.actual_actions c.actual_state).score : ℚ)
            ((TurnEvaluator.evaluate c.expected_actions c.expected_state
              c.actual_actions c.actual_state).score == 1) 1 s0) := by
        rw [evaluate_turn_fst_analyzer, hstep, h0, hcount, if_pos hmem]
        rfl
      obtain ⟨s, hs, ht⟩ := ih _ q hnd' _ hbye
      refine ⟨s, hs, ?_⟩
      have h1 : (applyN
          ((TurnEvaluator.evaluate c.expected_actions c.expected_state
            c.actual_actions c.actual_state).score : ℚ)
          ((TurnEvaluator.evaluate c.expected_actions c.expected_state
            c.actual_actions c.actual_state).score == 1) 1 s0).total =
          s0.total + 1 := applyN_total _ _ 1 s0
      have hif : (if (decide (q ∈ effDevices c)) = true then 1 else 0) = 1 := by
        simp [hmem]
      rw [ht, h1, List.countP_cons, hif]
      omega
    · have hbye : (ae.evaluate_turn c.actual_actions c.actual_state
          c.expected_actions c.expected_state c.metadata).1.analyzer.profile.by_device q =
          some s0 := by
        rw [evaluate_turn_fst_analyzer, hstep, h0, hcount, if_neg hmem]
        rfl
      obtain ⟨s, hs, ht⟩ := ih _ q hnd' _ hbye
      refine ⟨s, hs, ?_⟩
      have hif : (if (decide (q ∈ effDevices c)) = true then 1 else 0) = 0 := by
        simp [hmem]
      rw [ht, List.countP_cons, hif]
      omega

end GreenAgentV2

-- Score bound and invariant preservation for the analyzer.

namespace GreenAgentV2

theorem evaluate_score_le_one (e : List ActionDict) (s : Dict)
    (a : List ActionDict) (t : Dict) :
    (TurnEvaluator.evaluate e s a t).score ≤ 1 := by
  by_cases h : seqErrors e a = []
  · rw [evaluate_seq_ok h]
    by_cases h2 : (stateCheck s t).2 <;> simp [buildResult, h2]
  · rw [evaluate_seq_fail h]
    simp [buildResult]

theorem mapInv_update_by_dimension {a : WeaknessAnalyzer} {r : TurnResult}
    (md : Metadata) (h : MapInv a.profile.by_dimension) (hsc : (r.score : ℚ) ≤ 1) :
    MapInv (a.update r md).profile.by_dimension := by
  intro q s hq
  rw [update_by_dimension_apply] at hq
  by_cases hc : md.dimension = some q ∧ q ≠ ""
  · rw [if_pos hc] at hq
    obtain ⟨s0, h0, rfl⟩ := Option.map_eq_some'.mp hq
    exact statInv_updateSingleStat (h q s0 h0) hsc
  · rw [if_neg hc] at hq
    exact h q s hq

theorem mapInv_update_by_difficulty {a : WeaknessAnalyzer} {r : TurnResult}
    (md : Metadata) (h : MapInv a.profile.by_difficulty) (hsc : (r.score : ℚ) ≤ 1) :
    MapInv (a.update r md).profile.by_difficulty := by
  intro q s hq
  rw [update_by_difficulty_apply] at hq
  by_cases hc : md.difficulty = some q ∧ q ≠ ""
  · rw [if_pos hc] at hq
    obtain ⟨s0, h0, rfl⟩ := Option.map_eq_some'.mp hq
    exact statInv_updateSingleStat (h q s0 h0) hsc
  · rw [if_neg hc] at hq
    exact h q s hq

theorem mapInv_update_by_device {a : WeaknessAnalyzer} {r : TurnResult}
    (md : Metadata) (h : MapInv a.profile.by_device) (hsc : (r.score : ℚ) ≤ 1) :
    MapInv (a.update r md).profile.by_device := by
  intro q s hq
  rw [update_by_device_apply] at hq
  obtain ⟨s0, h0, rfl⟩ := Option.map_eq_some'.mp hq
  exact statInv_applyN (h q s0 h0) hsc

/-- All three stats dicts of a profile satisfy the bucket invariants. -/
def ProfileInv (p : WeaknessProfile) : Prop :=
  MapInv p.by_dimension ∧ MapInv p.by_difficulty ∧ MapInv p.by_device

theorem profileInv_initProfile : ProfileInv initProfile :=
  ⟨mapInv_initStatsMap _, mapInv_initStatsMap _, mapInv_initStatsMap _⟩

theorem profileInv_update {a : WeaknessAnalyzer} {r : TurnResult} (md : Metadata)
    (h : ProfileInv a.profile) (hsc : r.score ≤ 1) :
    ProfileInv (a.update r md).profile := by
  have hsq : (r.score : ℚ) ≤ 1 := by exact_mod_cast hsc
  exact ⟨mapInv_update_by_dimension md h.1 hsq,
    mapInv_update_by_difficulty md h.2.1 hsq,
    mapInv_update_by_device md h.2.2 hsq⟩

theorem profileInv_runUpdates : ∀ (steps : List (TurnResult × Metadata))
    (a : WeaknessAnalyzer), ProfileInv a.profile →
    (∀ st ∈ steps, st.1.score ≤ 1) →
    ProfileInv ((a.runUpdates steps).profile) := by
  intro steps
  induction steps with
  | nil => intro a h _; exact h
  | cons st t ih =>
    intro a h hs
    have hcons : a.runUpdates (st :: t) = (a.update st.1 st.2).runUpdates t := rfl
    rw [hcons]
    exact ih _ (profileInv_update st.2 h (hs st (List.mem_cons_self st t)))
      (fun u hu => hs u (List.mem_cons_of_mem st hu))

-- === Claim theorems ===

/-- Claim C1 (amended): for every expected and actual action sequence on
which the sequence check fails (equivalently `actual ≠ expected`), both
`TurnEvaluator.evaluate` implementations return immediately with
`score = 0` and only the sequence errors; the expected final state is
never inspected (the result is the same for every expected and actual
final state, and carries no state errors).  The app evaluator reports
`state_match = None`, while the green_agent_v2 evaluator reports
`state_match = False` (a boolean), not `None`. -/
theorem c1_sequence_failure_short_circuit {expected actual : List ActionDict}
    (h : actual ≠ expected) :
    (∀ expS actS, TurnEvaluator.evaluate expected expS actual actS =
        buildResult 0 false (some false) (seqErrors expected actual)
          "Sequence mismatch") ∧
    (∀ expS actS, App.TurnEvaluator.evaluate expected expS actual actS =
        { score := 0,
          details := { sequence_match := false, state_match := none,
                       errors := (App.verifySequence expected actual).2 },
          message := "Sequence mismatch: Agent\x27s action sequence does not match expected sequence" }) := by
  constructor
  · intro expS actS
    exact evaluate_seq_fail (fun hnil => h ((seqErrors_eq_nil_iff _ _).mp hnil))
  · intro expS actS
    have hf : (App.verifySequence expected actual).1 = false := by
      cases hb : (App.verifySequence expected actual).1
      · rfl
      · exact absurd ((App.verifySequence_fst_iff _ _).mp hb) h
    exact App.app_evaluate_seq_fail hf

/-- Claim C1, counterexample to the claim as stated: on a failing sequence
check the green_agent_v2 evaluator returns `state_match = some false`, not
`none` (null), so "evaluate returns state_match = null" is false for it. -/
theorem c1_counterexample :
    ([] : List ActionDict) ≠
      [{ action := "update", key := some "bedroom_light",
         value := some (Value.vStr "on") }] ∧
    (TurnEvaluator.evaluate
        [{ action := "update", key := some "bedroom_light",
           value := some (Value.vStr "on") }]
        [("bedroom_light", Value.vStr "on")] [] []).details.state_match =
      some false ∧
    (TurnEvaluator.evaluate
        [{ action := "update", key := some "bedroom_light",
           value := some (Value.vStr "on") }]
        [("bedroom_light", Value.vStr "on")] [] []).details.state_match ≠
      none := by
  refine ⟨by decide, by decide, by decide⟩

/-- Claim C1, witness: the amended theorem applied to one expected action
against an empty actual sequence. -/
theorem c1_witness :
    ([] : List ActionDict) ≠
      [{ action := "update", key := some "kitchen_light",
         value := some (Value.vStr "on") }] ∧
    TurnEvaluator.evaluate
        [{ action := "update", key := some "kitchen_light",
           value := some (Value.vStr "on") }]
        [("kitchen_light", Value.vStr "on")] [] [] =
      buildResult 0 false (some false)
        (seqErrors
          [{ action := "update", key := some "kitchen_light",
             value := some (Value.vStr "on") }] [])
        "Sequence mismatch" ∧
    App.TurnEvaluator.evaluate
        [{ action := "update", key := some "kitchen_light",
           value := some (Value.vStr "on") }]
        [("kitchen_light", Value.vStr "on")] [] [] =
      { score := 0,
        details := { sequence_match := false, state_match := none,
                     errors := (App.verifySequence
                       [{ action := "update", key := some "kitchen_light",
                          value := some (Value.vStr "on") }] []).2 },
        message := "Sequence mismatch: Agent\x27s action sequence does not match expected sequence" } :=
  ⟨by decide,
   (c1_sequence_failure_short_circuit (by decide)).1
     [("kitchen_light", Value.vStr "on")] [],
   (c1_sequence_failure_short_circuit (by decide)).2
     [("kitchen_light", Value.vStr "on")] []⟩

/-- Claim C2: for equal-length sequences the green_agent_v2 evaluator
compares element-wise by exact, type-sensitive structural equality (the
integer 24 and the string "24" differ), records one positional error per
differing index (accumulating all of them), and `sequence_match` is true
exactly when zero errors were produced. -/
theorem c2_elementwise_accumulation {expected actual : List ActionDict}
    {expS actS : Dict} (hlen : actual.length = expected.length) :
    seqErrors expected actual = elemErrors 0 expected actual ∧
    (elemErrors 0 expected actual).length =
      (expected.zip actual).countP (fun p => decide (p.1 ≠ p.2)) ∧
    ((TurnEvaluator.evaluate expected expS actual actS).details.sequence_match =
        true ↔ elemErrors 0 expected actual = []) ∧
    ({ action := "update", key := some "ac_temperature",
       value := some (Value.vInt 24) } : ActionDict) ≠
      { action := "update", key := some "ac_temperature",
        value := some (Value.vStr "24") } := by
  have h1 : seqErrors expected actual = elemErrors 0 expected actual := by
    unfold seqErrors
    rw [if_neg (by simp [hlen])]
  refine ⟨h1, elemErrors_length expected actual 0, ?_, by decide⟩
  by_cases h : seqErrors expected actual = []
  · rw [evaluate_seq_ok h]
    simp [buildResult, h1.symm.trans h]
  · rw [evaluate_seq_fail h]
    simp only [buildResult]
    constructor
    · intro hfalse; cases hfalse
    · intro hnil; exact absurd (h1.trans hnil) h

/-- Claim C2, witness: one matching and one differing index; exactly one
positional error is recorded and the sequence match fails. -/
theorem c2_witness :
    ([({ action := "update", key := some "ac", value := some (Value.vStr "on") } : ActionDict),
      { action := "update", key := some "fan_speed", value := some (Value.vStr "low") }]).length =
      ([({ action := "update", key := some "ac", value := some (Value.vStr "on") } : ActionDict),
        { action := "update", key := some "fan_speed", value := some (Value.vStr "high") }]).length ∧
    ((elemErrors 0
        [{ action := "update", key := some "ac", value := some (Value.vStr "on") },
         { action := "update", key := some "fan_speed", value := some (Value.vStr "high") }]
        [{ action := "update", key := some "ac", value := some (Value.vStr "on") },
         { action := "update", key := some "fan_speed", value := some (Value.vStr "low") }]).length =
      ([({ action := "update", key := some "ac", value := some (Value.vStr "on") } : ActionDict),
        { action := "update", key := some "fan_speed", value := some (Value.vStr "high") }].zip
        [{ action := "update", key := some "ac", value := some (Value.vStr "on") },
         { action := "update", key := some "fan_speed", value := some (Value.vStr "low") }]).countP
        (fun p => decide (p.1 ≠ p.2))) :=
  ⟨by decide,
   (@c2_elementwise_accumulation
     [{ action := "update", key := some "ac", value := some (Value.vStr "on") },
      { action := "update", key := some "fan_speed", value := some (Value.vStr "high") }]
     [{ action := "update", key := some "ac", value := some (Value.vStr "on") },
      { action := "update", key := some "fan_speed", value := some (Value.vStr "low") }]
     [] [] (by decide)).2.1⟩

/-- Claim C6: with a matching sequence and an actual final state that
agrees with the expected partial state on every expected key, the result
is score 1, `state_match = true` and an empty error list, regardless of
extra keys present only in the actual state. -/
theorem c6_partial_state_superset {expected_actions actual_actions : List ActionDict}
    {expS actS : Dict} (hseq : actual_actions = expected_actions)
    (hstate : ∀ kv ∈ expS, dictGet actS kv.1 = some kv.2) :
    TurnEvaluator.evaluate expected_actions expS actual_actions actS =
      buildResult 1 true (some true) [] "Perfect" := by
  have h0 : seqErrors expected_actions actual_actions = [] :=
    (seqErrors_eq_nil_iff _ _).mpr hseq
  have hfm : expS.filterMap
      (fun kv =>
        if dictGet actS kv.1 ≠ some kv.2 then
          some (stateMismatchMsg kv.1 kv.2 (dictGet actS kv.1))
        else none) = [] := by
    rw [List.filterMap_eq_nil_iff]
    intro kv hkv
    simp [hstate kv hkv]
  have hall : expS.all (fun kv => dictGet actS kv.1 == some kv.2) = true := by
    rw [List.all_eq_true]
    intro kv hkv
    simp [hstate kv hkv]
  have hsc : stateCheck expS actS = ([], true) := by
    rw [stateCheck_eq, hfm, hall]
  rw [evaluate_seq_ok h0, hsc]
  rfl

/-- Claim C6, witness: the spec scenario with an extra key `ac` present
only in the actual state. -/
theorem c6_witness :
    (([] : List ActionDict) = []) ∧
    (∀ kv ∈ ([("living_room_light", Value.vStr "on")] : Dict),
        dictGet [("living_room_light", Value.vStr "on"), ("ac", Value.vStr "off")] kv.1 =
          some kv.2) ∧
    TurnEvaluator.evaluate [] [("living_room_light", Value.vStr "on")] []
        [("living_room_light", Value.vStr "on"), ("ac", Value.vStr "off")] =
      buildResult 1 true (some true) [] "Perfect" :=
  ⟨rfl, by decide, c6_partial_state_superset rfl (by decide)⟩

/-- Claim C7: with a matching sequence, any expected-state key absent from
the actual state yields an error and `state_match = false` (score 0),
whatever the expected value. -/
theorem c7_missing_state_key {expected_actions actual_actions : List ActionDict}
    {expS actS : Dict} {k : String} {v : Value}
    (hseq : actual_actions = expected_actions) (hk : (k, v) ∈ expS)
    (hmiss : dictGet actS k = none) :
    (TurnEvaluator.evaluate expected_actions expS actual_actions actS).details.state_match =
      some false ∧
    stateMismatchMsg k v none ∈
      (TurnEvaluator.evaluate expected_actions expS actual_actions actS).details.errors ∧
    (TurnEvaluator.evaluate expected_actions expS actual_actions actS).score = 0 := by
  have h0 : seqErrors expected_actions actual_actions = [] :=
    (seqErrors_eq_nil_iff _ _).mpr hseq
  have hall : expS.all (fun kv => dictGet actS kv.1 == some kv.2) = false := by
    cases hb : expS.all (fun kv => dictGet actS kv.1 == some kv.2) with
    | false => rfl
    | true =>
      have hkv := List.all_eq_true.mp hb (k, v) hk
      rw [show ((k, v) : String × Value).1 = k from rfl] at hkv
      rw [hmiss] at hkv
      cases hkv
  have hsc2 : (stateCheck expS actS).2 = false := by
    rw [stateCheck_eq]
    exact hall
  have hmem : stateMismatchMsg k v none ∈ (stateCheck expS actS).1 := by
    rw [stateCheck_eq]
    apply List.mem_filterMap.mpr
    refine ⟨(k, v), hk, ?_⟩
    simp [hmiss]
  refine ⟨?_, ?_, ?_⟩ <;>
    simp [evaluate_seq_ok h0, buildResult, hsc2, hmem]

/-- Claim C7, witness: expected key `front_door_lock` missing from the
actual state. -/
theorem c7_witness :
    (([] : List ActionDict) = []) ∧
    (("front_door_lock", Value.vStr "locked") ∈
      ([("front_door_lock", Value.vStr "locked")] : Dict)) ∧
    dictGet [] "front_door_lock" = none ∧
    (TurnEvaluator.evaluate [] [("front_door_lock", Value.vStr "locked")] [] []).details.state_match =
      some false ∧
    stateMismatchMsg "front_door_lock" (Value.vStr "locked") none ∈
      (TurnEvaluator.evaluate [] [("front_door_lock", Value.vStr "locked")] [] []).details.errors ∧
    (TurnEvaluator.evaluate [] [("front_door_lock", Value.vStr "locked")] [] []).score = 0 :=
  ⟨rfl, by decide, rfl,
   (@c7_missing_state_key [] [] [("front_door_lock", Value.vStr "locked")] []
     "front_door_lock" (Value.vStr "locked") rfl (by decide) rfl).1,
   (@c7_missing_state_key [] [] [("front_door_lock", Value.vStr "locked")] []
     "front_door_lock" (Value.vStr "locked") rfl (by decide) rfl).2.1,
   (@c7_missing_state_key [] [] [("front_door_lock", Value.vStr "locked")] []
     "front_door_lock" (Value.vStr "locked") rfl (by decide) rfl).2.2⟩

/-- Claim C8 (amended): a length mismatch yields exactly one
count-mismatch error (only the two counts, no per-item detail),
`sequence_match = false` and score 0; with one expected action and an
empty actual sequence the errors are exactly
["Action count mismatch: expected 1, got 0"] and `state_match` is false
(a boolean, not null as the claim stated). -/
theorem c8_length_mismatch :
    (∀ (e a : List ActionDict) (s t : Dict), a.length ≠ e.length →
        TurnEvaluator.evaluate e s a t =
          buildResult 0 false (some false)
            [countMismatchMsg e.length a.length] "Sequence mismatch") ∧
    TurnEvaluator.evaluate
        [{ action := "update", key := some "living_room_light",
           value := some (Value.vStr "on") }]
        [("living_room_light", Value.vStr "on")] [] [] =
      buildResult 0 false (some false)
        ["Action count mismatch: expected 1, got 0"] "Sequence mismatch" := by
  constructor
  · intro e a s t hlen
    have hse : seqErrors e a = [countMismatchMsg e.length a.length] := by
      unfold seqErrors
      rw [if_pos hlen]
    have hne : seqErrors e a ≠ [] := by rw [hse]; simp
    rw [evaluate_seq_fail hne, hse]
  · decide

/-- Claim C8, counterexample to the claim as stated: in the one-expected,
zero-actual scenario the error string is as claimed but `state_match` is
`some false`, not null. -/
theorem c8_counterexample :
    (TurnEvaluator.evaluate
        [{ action := "update", key := some "living_room_color",
           value := some (Value.vStr "warm") }]
        [("living_room_color", Value.vStr "warm")] [] []).details.errors =
      ["Action count mismatch: expected 1, got 0"] ∧
    (TurnEvaluator.evaluate
        [{ action := "update", key := some "living_room_color",
           value := some (Value.vStr "warm") }]
        [("living_room_color", Value.vStr "warm")] [] []).details.state_match =
      some false ∧
    (TurnEvaluator.evaluate
        [{ action := "update", key := some "living_room_color",
           value := some (Value.vStr "warm") }]
        [("living_room_color", Value.vStr "warm")] [] []).details.state_match ≠
      none := by
  refine ⟨by decide, by decide, by decide⟩

/-- Claim C8, witness: the universally quantified part applied to two
actual actions against one expected action. -/
theorem c8_witness :
    (([({ action := "update", key := some "ac", value := some (Value.vStr "on") } : ActionDict),
       { action := "update", key := some "ac", value := some (Value.vStr "off") }]).length ≠
      ([({ action := "update", key := some "ac", value := some (Value.vStr "on") } : ActionDict)]).length) ∧
    TurnEvaluator.evaluate
        [{ action := "update", key := some "ac", value := some (Value.vStr "on") }] []
        [{ action := "update", key := some "ac", value := some (Value.vStr "on") },
         { action := "update", key := some "ac", value := some (Value.vStr "off") }] [] =
      buildResult 0 false (some false) [countMismatchMsg 1 2] "Sequence mismatch" :=
  ⟨by decide,
   c8_length_mismatch.1
     [{ action := "update", key := some "ac", value := some (Value.vStr "on") }]
     [{ action := "update", key := some "ac", value := some (Value.vStr "on") },
      { action := "update", key := some "ac", value := some (Value.vStr "off") }]
     [] [] (by decide)⟩

/-- Claim C3: after any sequence of `WeaknessAnalyzer.update` calls (fed
results whose score is at most 1, as every `TurnEvaluator.evaluate` result
is — final conjunct), every bucket of every stats dict satisfies
`total = passed + failed` and `total_score ≤ max_possible_score`: each
update increments `total` and `max_possible_score` by 1, adds the score to
`total_score`, and increments exactly one of `passed`/`failed`, and
counters are never reset or decremented. -/
theorem c3_bucket_invariants (steps : List (TurnResult × Metadata))
    (hs : ∀ st ∈ steps, st.1.score ≤ 1) :
    (∀ k s, (WeaknessAnalyzer.mk0.runUpdates steps).profile.by_dimension k = some s →
        s.total = s.passed + s.failed ∧ s.total_score ≤ s.max_possible_score) ∧
    (∀ k s, (WeaknessAnalyzer.mk0.runUpdates steps).profile.by_difficulty k = some s →
        s.total = s.passed + s.failed ∧ s.total_score ≤ s.max_possible_score) ∧
    (∀ k s, (WeaknessAnalyzer.mk0.runUpdates steps).profile.by_device k = some s →
        s.total = s.passed + s.failed ∧ s.total_score ≤ s.max_possible_score) ∧
    (∀ (e a : List ActionDict) (s t : Dict),
        (TurnEvaluator.evaluate e s a t).score ≤ 1) := by
  have h := profileInv_runUpdates steps WeaknessAnalyzer.mk0
    profileInv_initProfile hs
  exact ⟨h.1, h.2.1, h.2.2, fun e a s t => evaluate_score_le_one e s a t⟩

/-- Claim C3, witness: one pass and one fail recorded into the
"precision" dimension bucket. -/
theorem c3_witness :
    ((WeaknessAnalyzer.mk0.runUpdates
        [({ score := 1,
            details := { sequence_match := true, state_match := some true,
                         errors := [] },
            message := "Perfect" },
          { dimension := some "precision", difficulty := some "easy",
            involved_devices := some ["ac"] }),
         ({ score := 0,
            details := { sequence_match := true, state_match := some false,
                         errors := ["State mismatch"] },
            message := "State mismatch" },
          { dimension := some "precision", difficulty := some "easy",
            involved_devices := some ["ac"] })]).profile.by_dimension "precision" =
      some { total := 2, passed := 1, failed := 1, total_score := 1,
             max_possible_score := 2 }) ∧
    (2 = 1 + 1 ∧ (1 : ℚ) ≤ 2) :=
  ⟨by norm_num +decide [WeaknessAnalyzer.runUpdates, WeaknessAnalyzer.update,
       WeaknessAnalyzer.mk0, initProfile, initStatsMap, StatsMap.insert,
       StatsMap.empty, touchBucket, updateSingleStat, List.foldl,
       DIMENSIONS, difficultyTiers, DEVICE_CONSTRAINTS],
   (c3_bucket_invariants
     [({ score := 1,
         details := { sequence_match := true, state_match := some true,
                      errors := [] },
         message := "Perfect" },
       { dimension := some "precision", difficulty := some "easy",
         involved_devices := some ["ac"] }),
      ({ score := 0,
         details := { sequence_match := true, state_match := some false,
                      errors := ["State mismatch"] },
         message := "State mismatch" },
       { dimension := some "precision", difficulty := some "easy",
         involved_devices := some ["ac"] })] (by decide)).1 "precision"
     { total := 2, passed := 1, failed := 1, total_score := 1,
       max_possible_score := 2 } (by norm_num +decide [WeaknessAnalyzer.runUpdates, WeaknessAnalyzer.update,
       WeaknessAnalyzer.mk0, initProfile, initStatsMap, StatsMap.insert,
       StatsMap.empty, touchBucket, updateSingleStat, List.foldl,
       DIMENSIONS, difficultyTiers, DEVICE_CONSTRAINTS])⟩

/-- The ten-outcome scenario of claim C9: six passes then four failures,
all tagged with dimension "precision". -/
def tenPrecisionSteps : List (TurnResult × Metadata) :=
  List.replicate 6
    ({ score := 1,
       details := { sequence_match := true, state_match := some true,
                    errors := [] },
       message := "Perfect" },
     ({ dimension := some "precision" } : Metadata)) ++
  List.replicate 4
    ({ score := 0,
       details := { sequence_match := true, state_match := some false,
                    errors := ["State mismatch"] },
       message := "State mismatch" },
     ({ dimension := some "precision" } : Metadata))

/-- Claim C9: the derived bucket properties are
`pass_rate = passed / max(1, total)`,
`avg_score = total_score / max(1, max_possible_score)` and
`weakness_score = 1 - avg_score`; after six score-1 and four score-0
updates tagged "precision", the "precision" bucket reports
`pass_rate = 0.6` and `weakness_score = 0.4`. -/
theorem c9_derived_properties :
    (∀ s : DimensionStats,
        s.pass_rate = (s.passed : ℚ) / ((max 1 s.total : Nat) : ℚ) ∧
        s.avg_score = s.total_score / max 1 s.max_possible_score ∧
        s.weakness_score = 1 - s.avg_score) ∧
    ((WeaknessAnalyzer.mk0.runUpdates tenPrecisionSteps).profile.by_dimension
        "precision").map DimensionStats.pass_rate = some (0.6 : ℚ) ∧
    ((WeaknessAnalyzer.mk0.runUpdates tenPrecisionSteps).profile.by_dimension
        "precision").map DimensionStats.weakness_score = some (0.4 : ℚ) := by
  refine ⟨fun s => ⟨rfl, rfl, rfl⟩, ?_, ?_⟩ <;>
    norm_num +decide [tenPrecisionSteps, List.replicate, DimensionStats.pass_rate,
      DimensionStats.avg_score, DimensionStats.weakness_score,
      WeaknessAnalyzer.runUpdates, WeaknessAnalyzer.update,
      WeaknessAnalyzer.mk0, initProfile, initStatsMap, StatsMap.insert,
      StatsMap.empty, touchBucket, updateSingleStat, List.foldl,
      DIMENSIONS, difficultyTiers, DEVICE_CONSTRAINTS]

/-- Claim C10: a fresh `WeaknessAnalyzer` profile is pre-populated with a
zeroed bucket for each of the 5 dimensions, 3 difficulty tiers and 10
catalog devices (and nothing else), and a zeroed bucket reports
`pass_rate = 0`, `avg_score = 0`, `weakness_score = 1`. -/
theorem c10_initial_profile :
    DIMENSIONS.length = 5 ∧ difficultyTiers.length = 3 ∧
    DEVICE_CONSTRAINTS.length = 10 ∧
    (∀ d, WeaknessAnalyzer.mk0.profile.by_dimension d =
        if d ∈ DIMENSIONS then some {} else none) ∧
    (∀ d, WeaknessAnalyzer.mk0.profile.by_difficulty d =
        if d ∈ difficultyTiers then some {} else none) ∧
    (∀ d, WeaknessAnalyzer.mk0.profile.by_device d =
        if d ∈ DEVICE_CONSTRAINTS.map (fun kv => kv.1) then some {} else none) ∧
    ({} : DimensionStats).total = 0 ∧ ({} : DimensionStats).total_score = 0 ∧
    ({} : DimensionStats).max_possible_score = 0 ∧
    ({} : DimensionStats).pass_rate = 0 ∧ ({} : DimensionStats).avg_score = 0 ∧
    ({} : DimensionStats).weakness_score = 1 := by
  refine ⟨by decide, by decide, by decide, ?_, ?_, ?_, rfl, rfl, rfl,
    by norm_num [DimensionStats.pass_rate],
    by norm_num [DimensionStats.avg_score],
    by norm_num [DimensionStats.weakness_score, DimensionStats.avg_score]⟩
  · intro d; exact initStatsMap_apply DIMENSIONS d
  · intro d; exact initStatsMap_apply difficultyTiers d
  · intro d; exact initStatsMap_apply (DEVICE_CONSTRAINTS.map (fun kv => kv.1)) d

/-- Claim C4: after N `evaluate_turn` calls the history holds exactly N
entries with indices 0..N-1 in call order, earlier runs are prefixes of
later ones (entries are never mutated, reordered or removed), and every
catalog bucket's `total` equals the number of calls whose (resolved)
metadata referenced it.  Caller-supplied involved-devices lists are
required to be duplicate-free, as Python sets are. -/
theorem c4_history_monotonicity (calls : List TurnCall)
    (hnd : ∀ c ∈ calls, ∀ l, c.metadata.involved_devices = some l → l.Nodup) :
    ((AdaptiveEvaluator.mk0.runTurns calls).history.length = calls.length) ∧
    ((AdaptiveEvaluator.mk0.runTurns calls).history.map HistoryEntry.index =
      List.range calls.length) ∧
    (∀ k, ∃ tail, (AdaptiveEvaluator.mk0.runTurns calls).history =
        (AdaptiveEvaluator.mk0.runTurns (calls.take k)).history ++ tail) ∧
    (∀ d ∈ DIMENSIONS, ∃ s,
        (AdaptiveEvaluator.mk0.runTurns calls).analyzer.profile.by_dimension d =
          some s ∧
        s.total = calls.countP (fun c => c.metadata.dimension == some d)) ∧
    (∀ d ∈ difficultyTiers, ∃ s,
        (AdaptiveEvaluator.mk0.runTurns calls).analyzer.profile.by_difficulty d =
          some s ∧
        s.total = calls.countP (fun c => c.metadata.difficulty == some d)) ∧
    (∀ d ∈ DEVICE_CONSTRAINTS.map (fun kv => kv.1), ∃ s,
        (AdaptiveEvaluator.mk0.runTurns calls).analyzer.profile.by_device d =
          some s ∧
        s.total = calls.countP (fun c => decide (d ∈ effDevices c))) := by
  refine ⟨?_, ?_, ?_, ?_, ?_, ?_⟩
  · have h := runTurns_history_length calls AdaptiveEvaluator.mk0
    rw [show AdaptiveEvaluator.mk0.history.length = 0 from rfl] at h
    simpa using h
  · have h := runTurns_history_map_index calls AdaptiveEvaluator.mk0
    have h0 : (AdaptiveEvaluator.mk0.history.map HistoryEntry.index) = [] := rfl
    rw [h, h0, List.nil_append]
    have h1 : AdaptiveEvaluator.mk0.history.length = 0 := rfl
    rw [h1, List.range_eq_range']
  · intro k
    exact runTurns_take_is_prelude calls k
  · intro d hd
    have hne : d ≠ "" := fun h => absurd (h ▸ hd) (by decide)
    have h0 : AdaptiveEvaluator.mk0.analyzer.profile.by_dimension d = some {} := by
      show initStatsMap DIMENSIONS d = some {}
      rw [initStatsMap_apply, if_pos hd]
    obtain ⟨s, hs, ht⟩ := runTurns_dim_total calls AdaptiveEvaluator.mk0 d hne {} h0
    exact ⟨s, hs, by simpa using ht⟩
  · intro d hd
    have hne : d ≠ "" := fun h => absurd (h ▸ hd) (by decide)
    have h0 : AdaptiveEvaluator.mk0.analyzer.profile.by_difficulty d = some {} := by
      show initStatsMap difficultyTiers d = some {}
      rw [initStatsMap_apply, if_pos hd]
    obtain ⟨s, hs, ht⟩ := runTurns_diff_total calls AdaptiveEvaluator.mk0 d hne {} h0
    exact ⟨s, hs, by simpa using ht⟩
  · intro d hd
    have h0 : AdaptiveEvaluator.mk0.analyzer.profile.by_device d = some {} := by
      show initStatsMap (DEVICE_CONSTRAINTS.map (fun kv => kv.1)) d = some {}
      rw [initStatsMap_apply, if_pos hd]
    obtain ⟨s, hs, ht⟩ := runTurns_dev_total calls AdaptiveEvaluator.mk0 d hnd {} h0
    exact ⟨s, hs, by simpa using ht⟩

/-- One expected/actual action used by the C4 witness scenario. -/
def demoActOn : ActionDict :=
  { action := "update", key := some "ac", value := some (Value.vStr "on") }

/-- The expected action of the second C4 witness call. -/
def demoActVol : ActionDict :=
  { action := "update", key := some "music_volume", value := some (Value.vInt 3) }

/-- The two calls of the C4 witness: one tagged "precision"/"easy" with
explicit involved devices, one tagged "memory" with the devices left to be
inferred from the expected side. -/
def demoCalls : List TurnCall :=
  [{ actual_actions := [demoActOn],
     actual_state := [("ac", Value.vStr "on")],
     expected_actions := [demoActOn],
     expected_state := [("ac", Value.vStr "on")],
     metadata := { dimension := some "precision", difficulty := some "easy",
                   involved_devices := some ["ac"] } },
   { actual_actions := [],
     actual_state := [],
     expected_actions := [demoActVol],
     expected_state := [("music_volume", Value.vInt 3)],
     metadata := { dimension := some "memory",
                   difficulty := some "medium" } }]

theorem demoCalls_nodup :
    ∀ c ∈ demoCalls, ∀ l, c.metadata.involved_devices = some l → l.Nodup := by
  intro c hc l hl
  simp only [demoCalls, List.mem_cons, List.not_mem_nil, or_false] at hc
  rcases hc with rfl | rfl
  · have h1 : ["ac"] = l := Option.some.inj hl
    rw [← h1]
    decide
  · exact Option.noConfusion hl

/-- Claim C4, witness: the theorem applied to the two-call scenario. -/
theorem c4_witness :
    ((AdaptiveEvaluator.mk0.runTurns demoCalls).history.length = demoCalls.length) ∧
    ((AdaptiveEvaluator.mk0.runTurns demoCalls).history.map HistoryEntry.index =
      List.range demoCalls.length) ∧
    (∃ s, (AdaptiveEvaluator.mk0.runTurns demoCalls).analyzer.profile.by_dimension
        "precision" = some s ∧
      s.total = demoCalls.countP (fun c => c.metadata.dimension == some "precision")) ∧
    (∃ s, (AdaptiveEvaluator.mk0.runTurns demoCalls).analyzer.profile.by_device
        "music_volume" = some s ∧
      s.total = demoCalls.countP (fun c => decide ("music_volume" ∈ effDevices c))) :=
  ⟨(c4_history_monotonicity demoCalls demoCalls_nodup).1,
   (c4_history_monotonicity demoCalls demoCalls_nodup).2.1,
   (c4_history_monotonicity demoCalls demoCalls_nodup).2.2.2.1 "precision" (by decide),
   (c4_history_monotonicity demoCalls demoCalls_nodup).2.2.2.2.2 "music_volume" (by decide)⟩

/-- Claim C5: when the caller's metadata lacks `involved_devices`, the
call stores (and forwards to the analyzer) metadata whose
`involved_devices` is exactly the union of the `key` fields of the
expected actions and the keys of the expected final state, duplicates
collapsed; the set is computed from the expected side only (the theorem
holds for every actual action list and actual state, which do not occur
in the inferred set). -/
theorem c5_device_inference (ae : AdaptiveEvaluator)
    (aa : List ActionDict) (ast : Dict) (ea : List ActionDict) (es : Dict)
    (md : Metadata) (h : md.involved_devices = none) :
    ((ae.evaluate_turn aa ast ea es md).1.history =
      ae.history ++
        [{ result := TurnEvaluator.evaluate ea es aa ast,
           metadata := { md with
             involved_devices := some (AdaptiveEvaluator.extract_devices ea es) },
           index := ae.history.length }]) ∧
    ((ae.evaluate_turn aa ast ea es md).1.analyzer =
      ae.analyzer.update (TurnEvaluator.evaluate ea es aa ast)
        { md with
          involved_devices := some (AdaptiveEvaluator.extract_devices ea es) }) ∧
    (∀ d, d ∈ AdaptiveEvaluator.extract_devices ea es ↔
        ((∃ a ∈ ea, a.key = some d) ∨ ∃ v, (d, v) ∈ es)) ∧
    (AdaptiveEvaluator.extract_devices ea es).Nodup := by
  have hres := resolveMetadata_of_none ea es h
  refine ⟨?_, ?_, ?_, List.nodup_dedup _⟩
  · rw [evaluate_turn_fst_history, hres]
  · rw [evaluate_turn_fst_analyzer, hres]
  · intro d
    unfold AdaptiveEvaluator.extract_devices
    rw [List.mem_dedup, List.mem_append]
    constructor
    · rintro (hl | hr)
      · obtain ⟨a, ha, hk⟩ := List.mem_filterMap.mp hl
        exact Or.inl ⟨a, ha, hk⟩
      · obtain ⟨kv, hkv, he⟩ := List.mem_map.mp hr
        subst he
        exact Or.inr ⟨kv.2, by simpa using hkv⟩
    · rintro (⟨a, ha, hk⟩ | ⟨v, hv⟩)
      · exact Or.inl (List.mem_filterMap.mpr ⟨a, ha, hk⟩)
      · exact Or.inr (List.mem_map.mpr ⟨(d, v), hv, rfl⟩)

/-- The expected actions of the C5 witness (the spec scenario). -/
def c5ea : List ActionDict :=
  [{ action := "update", key := some "living_room_light",
     value := some (Value.vStr "on") }]

/-- The expected final state of the C5 witness. -/
def c5es : Dict := [("ac_temperature", Value.vInt 24)]

/-- The metadata of the C5 witness, without `involved_devices`. -/
def c5md : Metadata :=
  { dimension := some "precision", difficulty := some "easy" }

/-- Claim C5, witness: the spec scenario — one expected action on
`living_room_light`, expected state on `ac_temperature`, metadata without
`involved_devices`. -/
theorem c5_witness :
    ((AdaptiveEvaluator.mk0.evaluate_turn [] [] c5ea c5es c5md).1.history =
      AdaptiveEvaluator.mk0.history ++
        [{ result := TurnEvaluator.evaluate c5ea c5es [] [],
           metadata := { c5md with
             involved_devices := some (AdaptiveEvaluator.extract_devices c5ea c5es) },
           index := AdaptiveEvaluator.mk0.history.length }]) ∧
    ("ac_temperature" ∈ AdaptiveEvaluator.extract_devices c5ea c5es ↔
      ((∃ a ∈ c5ea, a.key = some "ac_temperature") ∨
        ∃ v, ("ac_temperature", v) ∈ c5es)) ∧
    (AdaptiveEvaluator.extract_devices c5ea c5es).Nodup :=
  ⟨(c5_device_inference AdaptiveEvaluator.mk0 [] [] c5ea c5es c5md rfl).1,
   (c5_device_inference AdaptiveEvaluator.mk0 [] [] c5ea c5es c5md rfl).2.2.1
     "ac_temperature",
   (c5_device_inference AdaptiveEvaluator.mk0 [] [] c5ea c5es c5md rfl).2.2.2⟩

end GreenAgentV2

end SmartMem
